import Mathlib

/-!
Verification development for the enterprise chat-assistant repository
(auth client `src/lib/aws/auth.ts`, API client `src/lib/aws/api.ts`,
the three edge chat endpoints, and the client-side analytics hook).

The TypeScript source is shallowly embedded: JS objects become Lean
structures with `Option` fields for optional keys, JS truthiness is made
explicit (`0`, `""`, absent ⇒ falsy), `Date.now()` is threaded as an
explicit `now : Int` (epoch milliseconds), network responses are passed
in as values, and `JSON.parse` of a string is threaded as an explicit
partial parsing function.
-/

/-- JS truthiness of an optional string field: absent and `""` are falsy. -/
def truthyS : Option String → Bool
  | none => false
  | some s => s ≠ ""

/-- JS truthiness of an optional numeric field: absent and `0` are falsy. -/
def truthyN : Option Int → Bool
  | none => false
  | some n => n ≠ 0

/-- JS `a || b` for an optional string against a string default. -/
def orElseS (a : Option String) (b : String) : String :=
  if truthyS a then a.getD "" else b

/-- JS `a || b` for an optional number against a numeric default. -/
def orElseN (a : Option Int) (b : Int) : Int :=
  if truthyN a then a.getD 0 else b

/-! ## Token estimation (edge endpoints, `estimateTokens`)

`function estimateTokens(text: string): number { return Math.ceil(text.length / 4); }`
(identical in the AI-gateway and Lambda-with-key variants). In Lean,
`⌈n / 4⌉` over naturals is `(n + 3) / 4` with truncating division. -/

def estimateTokens (text : String) : Nat :=
  (text.length + 3) / 4

/-! ## Feedback records (`useAnalytics.trackFeedback`)

```
const trackFeedback = useCallback((messageId, rating) => {
  setFeedbackRecords((prev) => {
    const existing = prev.find((f) => f.messageId === messageId);
    if (existing) {
      return prev.map((f) => (f.messageId === messageId ? { ...f, rating } : f));
    }
    return [...prev, { messageId, rating }];
  });
}, []);
```
-/

inductive Rating
  | like
  | dislike
deriving DecidableEq, Repr

structure FeedbackRecord where
  messageId : String
  rating : Rating
deriving DecidableEq, Repr

def trackFeedback (prev : List FeedbackRecord) (messageId : String)
    (rating : Rating) : List FeedbackRecord :=
  if prev.any (fun f => f.messageId = messageId) then
    prev.map (fun f => if f.messageId = messageId then { f with rating := rating } else f)
  else
    prev ++ [⟨messageId, rating⟩]

/-- The feedback-record state reached from the initial empty list by a
sequence of `trackFeedback` calls. -/
def applyFeedback (calls : List (String × Rating)) : List FeedbackRecord :=
  calls.foldl (fun l c => trackFeedback l c.1 c.2) []

/-! ## Department prompts and canned sources (edge endpoints)

`departmentPrompts` / `systemPrompt` and `generateSources` from the
AI-gateway and Lambda-with-key variants, and `generateDefaultSources` from
the Lambda-proxy variant. A JS `Record` lookup that misses yields
`undefined` (falsy), so `table[department] || fallback` is modelled with
an association-list `find?` feeding the truthiness-aware defaults. -/

def genericPrompt : String :=
  "You are a helpful enterprise assistant. Answer questions clearly and professionally."

def departmentPrompts : List (String × String) :=
  [("HR", "You are an HR policy assistant. Help employees understand HR policies, benefits, leave procedures, and workplace guidelines. Be professional and cite policy documents when relevant."),
   ("Finance", "You are a Finance department assistant. Help with expense reports, budget questions, financial procedures, and compliance guidelines. Be precise and reference financial policies."),
   ("IT", "You are an IT support assistant. Help with software requests, security policies, technical procedures, and system access. Be clear and reference IT documentation."),
   ("Operations", "You are an Operations assistant. Help with procurement, vendor management, supply chain questions, and operational procedures. Be efficient and reference operational guidelines.")]

def systemPrompt (department : String) : String :=
  orElseS ((departmentPrompts.find? (fun p => p.1 = department)).map Prod.snd)
    genericPrompt

structure Source where
  title : String
  type : String
  reference : Option String
deriving DecidableEq, Repr

def departmentSources : List (String × List Source) :=
  [("HR", [⟨"Employee Handbook v3.2", "document", some "HR-DOC-001"⟩,
           ⟨"HR Policy Guidelines", "policy", some "HR-POL-002"⟩]),
   ("Finance", [⟨"Financial Procedures Manual", "document", some "FIN-DOC-001"⟩,
                ⟨"Expense Policy 2024", "policy", some "FIN-POL-001"⟩]),
   ("IT", [⟨"IT Security Handbook", "document", some "IT-DOC-001"⟩,
           ⟨"Software Request Portal", "link", some "IT-SYS-001"⟩]),
   ("Operations", [⟨"Operations Manual", "document", some "OPS-DOC-001"⟩,
                   ⟨"Vendor Guidelines", "policy", some "OPS-POL-001"⟩])]

def generateSources (department : String) : List Source :=
  ((departmentSources.find? (fun p => p.1 = department)).map Prod.snd).getD []

/-- Function `generateDefaultSources` in the Lambda-proxy variant: textually the same
table as `generateSources` in the other two variants. -/
def generateDefaultSources (department : String) : List Source :=
  ((departmentSources.find? (fun p => p.1 = department)).map Prod.snd).getD []

/-! ## Analytics records and daily aggregation (`useAnalytics.getAggregatedAnalytics`)

`AnalyticsMetadata` is the per-turn record shared by the edge endpoints
and the client. The daily aggregation walks `analyticsHistory` building an
insertion-ordered `dailyMap : date → {messages, tokens}` keyed by
`new Date(a.timestamp).toISOString().split("T")[0]`; that calendar-day key
extraction is threaded as an explicit `dateKey` function. -/

structure AnalyticsMetadata where
  session_id : String
  execution_time_ms : Int
  invocation_count : Int
  input_tokens : Int
  output_tokens : Int
  total_tokens : Int
  model : String
  department : String
  timestamp : String
  locale : String
  rag_mode : Option String
  error : Option Bool := none
deriving DecidableEq, Repr

structure DailyEntry where
  date : String
  messages : Nat
  tokens : Int
deriving DecidableEq, Repr

/-- One `forEach` step of the daily aggregation: create the `{0,0}` bucket
for an unseen date at the end (JS object insertion order) and increment the
bucket in place. -/
def dailyBump (d : String) (tok : Int) : List DailyEntry → List DailyEntry
  | [] => [⟨d, 1, tok⟩]
  | e :: rest =>
    if e.date = d then ⟨e.date, e.messages + 1, e.tokens + tok⟩ :: rest
    else e :: dailyBump d tok rest

/-- Field `dailyUsage` of `getAggregatedAnalytics`: `Object.entries(dailyMap)`
after folding the whole history. -/
def dailyUsage (dateKey : String → String) (records : List AnalyticsMetadata) :
    List DailyEntry :=
  records.foldl (fun acc a => dailyBump (dateKey a.timestamp) a.total_tokens acc) []

def dailyLookup (l : List DailyEntry) (d : String) : Option DailyEntry :=
  l.find? (fun e => e.date = d)

/-- Number of analytics records falling on calendar day `d`. -/
def dayMessages (dateKey : String → String) (records : List AnalyticsMetadata)
    (d : String) : Nat :=
  (records.filter (fun a => dateKey a.timestamp = d)).length

/-- Sum of `total_tokens` over the analytics records falling on day `d`. -/
def dayTokens (dateKey : String → String) (records : List AnalyticsMetadata)
    (d : String) : Int :=
  ((records.filter (fun a => dateKey a.timestamp = d)).map
    AnalyticsMetadata.total_tokens).sum

/-- A concrete analytics record carrying only the fields the daily
aggregation reads (timestamp, total_tokens); the rest are fixed. -/
def mkDayRecord (ts : String) (tok : Int) : AnalyticsMetadata :=
  { session_id := "s", execution_time_ms := 0, invocation_count := 1,
    input_tokens := 0, output_tokens := 0, total_tokens := tok,
    model := "m", department := "HR", timestamp := ts, locale := "en_US",
    rag_mode := none }

/-! ## Authentication client (`src/lib/aws/auth.ts`)

Sessions live in `localStorage` under one key; the stored value is
modelled by `StoredVal`: `absent` covers a missing key (and the falsy empty
string), `malformed` a present string on which `JSON.parse` throws, and
`valid` a parsed `AuthSession`. `Date.now()` is an explicit `now` in epoch
milliseconds, and each Lambda auth call's outcome is passed in as a
`FetchOutcome` (network throw, or HTTP ok-flag plus decoded JSON). -/

structure AuthUser where
  id : String
  email : String
  name : Option String := none
  department : Option String := none
  roles : Option (List String) := none
deriving DecidableEq, Repr, Inhabited

structure AuthSession where
  token : String
  refreshToken : Option String := none
  expiresAt : Int
  user : AuthUser
deriving DecidableEq, Repr

structure LambdaAuthResponse where
  statusCode : Option Int := none
  body : Option String := none
  token : Option String := none
  refreshToken : Option String := none
  expiresIn : Option Int := none
  user : Option AuthUser := none
  error : Option String := none
  message : Option String := none
deriving DecidableEq, Repr

inductive StoredVal
  | absent
  | malformed (raw : String)
  | valid (session : AuthSession)
deriving DecidableEq, Repr

inductive FetchOutcome (α : Type)
  | throw
  | reply (ok : Bool) (data : α)
deriving DecidableEq, Repr

/-- Function `getStoredSession`: read the storage key, parse, drop (and remove)
expired sessions; any exception yields `null`. Returns the result together
with the storage state it leaves behind. -/
def getStoredSession (stored : StoredVal) (now : Int) :
    Option AuthSession × StoredVal :=
  match stored with
  | .absent => (none, .absent)
  | .malformed raw => (none, .malformed raw)
  | .valid s =>
    if s.expiresAt < now then (none, .absent)
    else (some s, .valid s)

/-- Function `parseLambdaResponse` of the auth module: unwrap the proxy envelope
when `statusCode` and `body` are both truthy; an unparsable body becomes
`{ error: body }`; otherwise the response is already direct. -/
def authParseLambdaResponse (parseJson : String → Option LambdaAuthResponse)
    (r : LambdaAuthResponse) : LambdaAuthResponse :=
  if truthyN r.statusCode ∧ truthyS r.body then
    match parseJson (r.body.getD "") with
    | some v => v
    | none => { error := some (r.body.getD "") }
  else r

/-- Function `login`: given the HTTP ok-flag and decoded response of the
`/login` call, produce the thrown error or the session, together with the
storage state after the call. -/
def login (parseJson : String → Option LambdaAuthResponse) (ok : Bool)
    (data : LambdaAuthResponse) (now : Int) (stored : StoredVal) :
    Except String AuthSession × StoredVal :=
  let parsed := authParseLambdaResponse parseJson data
  if ¬ok ∨ truthyS parsed.error then
    (.error (orElseS parsed.error (orElseS parsed.message "Login failed")), stored)
  else if ¬truthyS parsed.token ∨ parsed.user = none then
    (.error "Invalid auth response: missing token or user", stored)
  else
    let session : AuthSession :=
      { token := parsed.token.getD ""
        refreshToken := parsed.refreshToken
        expiresAt := now + orElseN parsed.expiresIn 3600 * 1000
        user := parsed.user.getD default }
    (.ok session, .valid session)

/-- Function `signup`: textually the same post-fetch logic as `login` with the
other fixed fallback message. -/
def signup (parseJson : String → Option LambdaAuthResponse) (ok : Bool)
    (data : LambdaAuthResponse) (now : Int) (stored : StoredVal) :
    Except String AuthSession × StoredVal :=
  let parsed := authParseLambdaResponse parseJson data
  if ¬ok ∨ truthyS parsed.error then
    (.error (orElseS parsed.error (orElseS parsed.message "Signup failed")), stored)
  else if ¬truthyS parsed.token ∨ parsed.user = none then
    (.error "Invalid auth response: missing token or user", stored)
  else
    let session : AuthSession :=
      { token := parsed.token.getD ""
        refreshToken := parsed.refreshToken
        expiresAt := now + orElseN parsed.expiresIn 3600 * 1000
        user := parsed.user.getD default }
    (.ok session, .valid session)

/-- Function `refreshSession`: returns the result, the storage state left behind,
and whether the network refresh call was issued. -/
def refreshSession (parseJson : String → Option LambdaAuthResponse)
    (stored : StoredVal) (now : Int) (net : FetchOutcome LambdaAuthResponse) :
    Option AuthSession × StoredVal × Bool :=
  let read := getStoredSession stored now
  match read.1 with
  | none => (none, read.2, false)
  | some s =>
    if ¬truthyS s.refreshToken then (none, read.2, false)
    else if ¬(s.expiresAt - now < 5 * 60 * 1000) then (some s, read.2, false)
    else
      match net with
      | .throw => (none, .absent, true)
      | .reply ok data =>
        let parsed := authParseLambdaResponse parseJson data
        if ¬ok ∨ truthyS parsed.error ∨ ¬truthyS parsed.token then
          (none, .absent, true)
        else
          let newSession : AuthSession :=
            { token := parsed.token.getD ""
              refreshToken :=
                if truthyS parsed.refreshToken then parsed.refreshToken
                else s.refreshToken
              expiresAt := now + orElseN parsed.expiresIn 3600 * 1000
              user := parsed.user.getD s.user }
          (some newSession, .valid newSession, true)

/-! ## Chat API client (`src/lib/aws/api.ts`, `sendChatMessage`)

The decoded JSON of the fetch response is a `ClientBody`; `statusCode` and
`body` model key *presence* (the `'statusCode' in data` checks), and
`JSON.parse` of the envelope body is the threaded `parseJson`. The
function's visible outcome is the thrown error message or the normalized
`ChatResponse`. -/

structure ClientBody where
  statusCode : Option Nat := none
  body : Option String := none
  error : Option String := none
  message : Option String := none
  content : Option String := none
  response : Option String := none
  analytics : Option AnalyticsMetadata := none
  sources : Option (List Source) := none
deriving DecidableEq, Repr

structure ChatResponse where
  content : String
  analytics : AnalyticsMetadata
  sources : List Source
deriving DecidableEq, Repr

/-- Predicate `isLambdaProxyResponse`: both the `statusCode` and `body` keys are
present (the JS `in` operator — presence, not truthiness). -/
def isLambdaProxyResponse (d : ClientBody) : Bool :=
  d.statusCode.isSome && d.body.isSome

/-- Function `parseLambdaResponse` of the API client: unwrap a proxy envelope by
parsing its body, throwing on an unparsable body; pass a direct response
through. -/
def clientParseLambdaResponse (parseJson : String → Option ClientBody)
    (d : ClientBody) : Except String ClientBody :=
  if isLambdaProxyResponse d then
    match parseJson (d.body.getD "") with
    | some v => .ok v
    | none => .error ("Failed to parse Lambda response body: " ++ d.body.getD "")
  else .ok d

/-- Function `sendChatMessage` after the fetch resolved: `status` is the HTTP
status, `data` the decoded JSON; the remaining arguments supply the
session id, request fields and clock used by the synthesized default
analytics. -/
def sendChatMessage (parseJson : String → Option ClientBody) (status : Nat)
    (data : ClientBody) (sessionId department : String)
    (localeOpt : Option String) (ragMode : Option String) (nowIso : String) :
    Except String ChatResponse :=
  let ok := 200 ≤ status ∧ status < 300
  if ¬ok then
    if status = 429 then .error "Rate limit exceeded. Please try again later."
    else if status = 401 ∨ status = 403 then
      .error "Authentication required. Please log in."
    else
      match clientParseLambdaResponse parseJson data with
      | .error e => .error e
      | .ok parsed =>
        .error (orElseS parsed.error
          (orElseS parsed.message ("API error: " ++ toString status)))
  else
    match clientParseLambdaResponse parseJson data with
    | .error e => .error e
    | .ok parsed =>
      if isLambdaProxyResponse data ∧ 400 ≤ data.statusCode.getD 0 then
        .error (orElseS parsed.error
          ("Lambda error: " ++ toString (data.statusCode.getD 0)))
      else
        .ok { content := orElseS parsed.content
                (orElseS parsed.response (orElseS parsed.message ""))
              analytics := parsed.analytics.getD
                { session_id := sessionId, execution_time_ms := 0,
                  invocation_count := 1, input_tokens := 0, output_tokens := 0,
                  total_tokens := 0, model := "bedrock", department := department,
                  timestamp := nowIso, locale := orElseS localeOpt "en_US",
                  rag_mode := ragMode }
              sources := parsed.sources.getD [] }

/-- The concrete `JSON.parse` behaviour needed for the envelope scenario:
the exact body string of the 403 envelope decodes to `{error:"denied"}`. -/
def parseJsonDenied : String → Option ClientBody := fun s =>
  if s = "\x7b\"error\":\"denied\"\x7d" then some { error := some "denied" }
  else none

/-! ## Edge chat endpoints (three upstream-provider variants)

`handlerA` is the AI-gateway variant, `handlerB` the Lambda-with-key
variant, `handlerC` the Lambda-proxy variant. Each takes the request
fields, the wall-clock/ids it would otherwise generate, and the upstream
fetch outcome, and returns the HTTP status plus response body. A `throw`
caught by the outer `try` becomes the 500 response with a zeroed,
error-flagged analytics record. -/

inductive EdgeBody
  | success (content : String) (analytics : AnalyticsMetadata) (sources : List Source)
  | failure (error : String) (analytics : Option AnalyticsMetadata)
deriving DecidableEq, Repr

/-- The zeroed analytics record of the catch-all 500 response. -/
def errorAnalytics (freshId : String) (execMs : Int) (model nowIso : String) :
    AnalyticsMetadata :=
  { session_id := freshId, execution_time_ms := execMs, invocation_count := 0,
    input_tokens := 0, output_tokens := 0, total_tokens := 0, model := model,
    department := "Unknown", timestamp := nowIso, locale := "en_US",
    rag_mode := none, error := some true }

/-- AI-gateway variant. `hasKey` is whether `LOVABLE_API_KEY` is set,
`messages` the request messages' contents, `status` the upstream HTTP
status and `contentOpt` the extracted `choices[0].message.content`. -/
def handlerA (hasKey : Bool) (messages : List String) (department sessionId : String)
    (localeOpt ragMode : Option String) (execMs : Int) (nowIso freshId : String)
    (status : Nat) (contentOpt : Option String) : Nat × EdgeBody :=
  if ¬hasKey then
    (500, .failure "LOVABLE_API_KEY is not configured"
      (some (errorAnalytics freshId execMs "google/gemini-3-flash-preview" nowIso)))
  else
    let inputTokens := estimateTokens (String.intercalate " " messages ++
      systemPrompt department)
    if ¬(200 ≤ status ∧ status < 300) then
      if status = 429 then
        (429, .failure "Rate limits exceeded, please try again later." none)
      else if status = 402 then
        (402, .failure "Payment required, please add funds." none)
      else
        (500, .failure ("AI gateway error: " ++ toString status)
          (some (errorAnalytics freshId execMs "google/gemini-3-flash-preview" nowIso)))
    else
      let assistantContent := contentOpt.getD ""
      let outputTokens := estimateTokens assistantContent
      (200, .success assistantContent
        { session_id := sessionId, execution_time_ms := execMs,
          invocation_count := 0 + 1, input_tokens := (inputTokens : Int),
          output_tokens := (outputTokens : Int),
          total_tokens := (inputTokens : Int) + (outputTokens : Int),
          model := "google/gemini-3-flash-preview",
          department := orElseS (some department) "General",
          timestamp := nowIso, locale := localeOpt.getD "en_US",
          rag_mode := ragMode }
        (generateSources department))

/-- Lambda-with-key variant; `errorText` is the upstream error body text
used in the thrown generic message. -/
def handlerB (messages : List String) (department sessionId : String)
    (localeOpt ragMode : Option String) (execMs : Int) (nowIso freshId : String)
    (status : Nat) (errorText : String) (contentOpt : Option String) :
    Nat × EdgeBody :=
  let inputTokens := estimateTokens (String.intercalate " " messages ++
    systemPrompt department)
  if ¬(200 ≤ status ∧ status < 300) then
    if status = 429 then
      (429, .failure "Rate limits exceeded, please try again later." none)
    else if status = 403 then
      (403, .failure "Access denied. Check Lambda API key configuration." none)
    else
      (500, .failure ("AWS Lambda error: " ++ toString status ++ " - " ++ errorText)
        (some (errorAnalytics freshId execMs "google/gemini-3-flash-preview" nowIso)))
  else
    let assistantContent := contentOpt.getD ""
    let outputTokens := estimateTokens assistantContent
    (200, .success assistantContent
      { session_id := sessionId, execution_time_ms := execMs,
        invocation_count := 0 + 1, input_tokens := (inputTokens : Int),
        output_tokens := (outputTokens : Int),
        total_tokens := (inputTokens : Int) + (outputTokens : Int),
        model := "google/gemini-3-flash-preview",
        department := orElseS (some department) "General",
        timestamp := nowIso, locale := localeOpt.getD "en_US",
        rag_mode := ragMode }
      (generateSources department))

structure PartialAnalytics where
  execution_time_ms : Option Int := none
  invocation_count : Option Int := none
  input_tokens : Option Int := none
  output_tokens : Option Int := none
  total_tokens : Option Int := none
  model : Option String := none
deriving DecidableEq, Repr

structure LambdaResponseBody where
  response : Option String := none
  content : Option String := none
  message : Option String := none
  analytics : Option PartialAnalytics := none
  sources : Option (List Source) := none
  error : Option String := none
deriving DecidableEq, Repr

/-- What `JSON.parse(responseText)` produced in the Lambda-proxy variant:
an envelope (`statusCode` and `body` keys present) or a direct body. -/
inductive LambdaWire
  | envelope (statusCode : Nat) (body : String)
  | direct (b : LambdaResponseBody)
deriving DecidableEq, Repr

/-- The `bodyContent` resolution of the Lambda-proxy variant: an envelope's
string body is parsed, falling back to `{response: body}`; a direct reply
is used as is. -/
def handlerCBody (parseBody : String → Option LambdaResponseBody)
    (w : LambdaWire) : LambdaResponseBody :=
  match w with
  | .envelope _ b => (parseBody b).getD { response := some b }
  | .direct d => d

/-- Lambda-proxy variant. `wire = none` models `JSON.parse(responseText)`
throwing (`"Invalid Lambda response format"`); otherwise the effective
status code is the envelope's `statusCode` or the HTTP status. -/
def handlerC (parseBody : String → Option LambdaResponseBody) (status : Nat)
    (wire : Option LambdaWire) (department sessionId : String)
    (localeOpt ragMode : Option String) (execMs : Int) (nowIso freshId : String) :
    Nat × EdgeBody :=
  match wire with
  | none =>
    (500, .failure "Invalid Lambda response format"
      (some (errorAnalytics freshId execMs "lambda-llm" nowIso)))
  | some w =>
    let statusCode := match w with | .envelope sc _ => sc | .direct _ => status
    let bodyContent := handlerCBody parseBody w
    if 400 ≤ statusCode ∨ ¬(200 ≤ status ∧ status < 300) then
      if statusCode = 429 then
        (429, .failure "Rate limits exceeded, please try again later." none)
      else if statusCode = 403 ∨ statusCode = 401 then
        (403, .failure "Access denied. Check Lambda API key configuration." none)
      else
        (500, .failure (orElseS bodyContent.error
            ("Lambda error: " ++ toString statusCode))
          (some (errorAnalytics freshId execMs "lambda-llm" nowIso)))
    else
      (200, .success
        (orElseS bodyContent.response
          (orElseS bodyContent.content (orElseS bodyContent.message "")))
        { session_id := sessionId,
          execution_time_ms :=
            orElseN (bodyContent.analytics.bind PartialAnalytics.execution_time_ms) execMs,
          invocation_count :=
            orElseN (bodyContent.analytics.bind PartialAnalytics.invocation_count) 1,
          input_tokens :=
            orElseN (bodyContent.analytics.bind PartialAnalytics.input_tokens) 0,
          output_tokens :=
            orElseN (bodyContent.analytics.bind PartialAnalytics.output_tokens) 0,
          total_tokens :=
            orElseN (bodyContent.analytics.bind PartialAnalytics.total_tokens) 0,
          model := orElseS (bodyContent.analytics.bind PartialAnalytics.model) "lambda-llm",
          department := orElseS (some department) "General",
          timestamp := nowIso, locale := localeOpt.getD "en_US",
          rag_mode := ragMode }
        (bodyContent.sources.getD (generateDefaultSources department)))

lemma trackFeedback_ids_nodup {l : List FeedbackRecord}
    (h : (l.map FeedbackRecord.messageId).Nodup) (m : String) (r : Rating) :
    ((trackFeedback l m r).map FeedbackRecord.messageId).Nodup := by
  unfold trackFeedback
  split
  · have : (l.map (fun f => if f.messageId = m then { f with rating := r } else f)).map
        FeedbackRecord.messageId = l.map FeedbackRecord.messageId := by
      simp only [List.map_map]
      apply List.map_congr_left
      intro f _
      by_cases hf : f.messageId = m <;> simp [hf]
    rw [this]
    exact h
  · rename_i hnone
    simp only [List.any_eq_true, decide_eq_true_eq, not_exists, not_and] at hnone
    simp only [List.map_append, List.map_cons, List.map_nil]
    rw [List.nodup_append]
    refine ⟨h, List.nodup_singleton m, ?_⟩
    intro x hx
    simp only [List.mem_map] at hx
    obtain ⟨f, hf, rfl⟩ := hx
    simp only [List.mem_singleton]
    intro hcontra
    exact absurd hcontra (by simpa using hnone f hf)

lemma applyFeedback_ids_nodup (calls : List (String × Rating)) :
    ((applyFeedback calls).map FeedbackRecord.messageId).Nodup := by
  unfold applyFeedback
  induction calls using List.reverseRecOn with
  | nil => simp
  | append_singleton cs c ih =>
    rw [List.foldl_append, List.foldl_cons, List.foldl_nil]
    exact trackFeedback_ids_nodup ih c.1 c.2

lemma trackFeedback_filter_self {l : List FeedbackRecord}
    (h : (l.map FeedbackRecord.messageId).Nodup) (m : String) (r : Rating) :
    (trackFeedback l m r).filter (fun f => f.messageId = m) = [⟨m, r⟩] := by
  unfold trackFeedback
  split
  · rename_i hsome
    simp only [List.any_eq_true, decide_eq_true_eq] at hsome
    obtain ⟨f0, hf0, hid0⟩ := hsome
    rw [List.filter_map]
    have hcomp : ((fun f => decide (f.messageId = m)) ∘
        fun (f : FeedbackRecord) => if f.messageId = m then { f with rating := r } else f) =
        fun f => decide (f.messageId = m) := by
      funext f
      by_cases hf : f.messageId = m <;> simp [hf]
    rw [hcomp]
    have hcount : (l.filter (fun f => decide (f.messageId = m))).length = 1 := by
      have hle : (l.map FeedbackRecord.messageId).count m ≤ 1 :=
        List.nodup_iff_count_le_one.mp h m
      have hmem : m ∈ l.map FeedbackRecord.messageId :=
        List.mem_map.mpr ⟨f0, hf0, hid0⟩
      have hge : 0 < (l.map FeedbackRecord.messageId).count m :=
        List.count_pos_iff.mpr hmem
      have hcnt : (l.map FeedbackRecord.messageId).count m = 1 := by omega
      have key : (l.map FeedbackRecord.messageId).count m
          = (l.filter (fun f => decide (f.messageId = m))).length := by
        simp only [List.count, List.countP_eq_length_filter, List.filter_map,
          List.length_map]
        refine congrArg List.length (List.filter_congr ?_)
        intro f _
        by_cases hf : f.messageId = m <;> simp [hf]
      rw [← key]
      exact hcnt
    obtain ⟨a, ha⟩ := List.length_eq_one.mp hcount
    have hamem : a ∈ l.filter (fun f => decide (f.messageId = m)) := by
      rw [ha]; exact List.mem_singleton_self a
    have haid : a.messageId = m := by
      have := List.of_mem_filter hamem
      simpa using this
    rw [ha]
    simp [haid]
  · rename_i hnone
    simp only [List.any_eq_true, decide_eq_true_eq, not_exists, not_and] at hnone
    rw [List.filter_append]
    have h1 : l.filter (fun f => decide (f.messageId = m)) = [] := by
      rw [List.filter_eq_nil_iff]
      intro f hf
      simpa using hnone f hf
    rw [h1]
    simp

lemma trackFeedback_filter_other {l : List FeedbackRecord} (m : String) (r : Rating) :
    (trackFeedback l m r).filter (fun f => f.messageId ≠ m) =
      l.filter (fun f => f.messageId ≠ m) := by
  unfold trackFeedback
  split
  · rw [List.filter_map]
    have hcomp : ((fun f => decide (f.messageId ≠ m)) ∘
        fun (f : FeedbackRecord) => if f.messageId = m then { f with rating := r } else f) =
        fun f => decide (f.messageId ≠ m) := by
      funext f
      by_cases hf : f.messageId = m <;> simp [hf]
    rw [hcomp]
    have hmapid : List.map (fun f => if f.messageId = m then { f with rating := r } else f)
        (l.filter (fun f => decide (f.messageId ≠ m))) =
        List.map id (l.filter (fun f => decide (f.messageId ≠ m))) := by
      apply List.map_congr_left
      intro f hf
      have : f.messageId ≠ m := by simpa using List.of_mem_filter hf
      simp [this]
    rw [hmapid, List.map_id]
  · rw [List.filter_append]
    simp

/-- C6: for every sequence of trackFeedback calls starting from the empty
list, message ids in the feedback-record list are pairwise distinct (at most
one record per id); and after two further submissions for the same id with
different ratings, the records for that id are exactly one record carrying
the later rating, while records for other ids are unchanged. -/
theorem C6_trackFeedback_upsert (calls : List (String × Rating)) (id : String)
    (r1 r2 : Rating) (hne : r1 ≠ r2) :
    ((applyFeedback calls).map FeedbackRecord.messageId).Nodup ∧
    ((trackFeedback (trackFeedback (applyFeedback calls) id r1) id r2).map
      FeedbackRecord.messageId).Nodup ∧
    (trackFeedback (trackFeedback (applyFeedback calls) id r1) id r2).filter
      (fun f => f.messageId = id) = [⟨id, r2⟩] ∧
    (trackFeedback (trackFeedback (applyFeedback calls) id r1) id r2).filter
      (fun f => f.messageId ≠ id) =
      (applyFeedback calls).filter (fun f => f.messageId ≠ id) := by
  have h0 := applyFeedback_ids_nodup calls
  have h1 := trackFeedback_ids_nodup h0 id r1
  have h2 := trackFeedback_ids_nodup h1 id r2
  refine ⟨h0, h2, trackFeedback_filter_self h1 id r2, ?_⟩
  rw [trackFeedback_filter_other, trackFeedback_filter_other]

/-- Witness for C6 at a concrete call sequence: one prior submission for
message "a" as like, then feedback for "a" revised from like to dislike. -/
theorem C6_trackFeedback_upsert_witness :
    ((applyFeedback [("a", Rating.like)]).map FeedbackRecord.messageId).Nodup ∧
    ((trackFeedback (trackFeedback (applyFeedback [("a", Rating.like)]) "a" Rating.like)
      "a" Rating.dislike).map FeedbackRecord.messageId).Nodup ∧
    (trackFeedback (trackFeedback (applyFeedback [("a", Rating.like)]) "a" Rating.like)
      "a" Rating.dislike).filter (fun f => f.messageId = "a") = [⟨"a", Rating.dislike⟩] ∧
    (trackFeedback (trackFeedback (applyFeedback [("a", Rating.like)]) "a" Rating.like)
      "a" Rating.dislike).filter (fun f => f.messageId ≠ "a") =
      (applyFeedback [("a", Rating.like)]).filter (fun f => f.messageId ≠ "a") :=
  C6_trackFeedback_upsert [("a", Rating.like)] "a" Rating.like Rating.dislike
    (by decide)

/-- C8: for every input text the token estimate equals `⌈length/4⌉`;
in particular the empty string yields 0. -/
theorem C8_estimateTokens_ceil (s : String) :
    (estimateTokens s : ℤ) = ⌈(s.length : ℚ) / 4⌉ ∧ estimateTokens "" = 0 := by
  constructor
  · unfold estimateTokens
    symm
    rw [Int.ceil_eq_iff]
    constructor
    · rw [lt_div_iff₀ (by norm_num : (0:ℚ) < 4)]
      have hz : ((((s.length + 3) / 4 : ℕ) : ℤ) - 1) * 4 < (s.length : ℤ) := by omega
      exact_mod_cast hz
    · rw [div_le_iff₀ (by norm_num : (0:ℚ) < 4)]
      have hz : (s.length : ℤ) ≤ (((s.length + 3) / 4 : ℕ) : ℤ) * 4 := by omega
      exact_mod_cast hz
  · rfl

/-- C7: any department string outside the four known keys selects the
generic enterprise prompt and an empty canned sources list, while each of
the four known departments gets its two fixed source entries (in both the
estimating variants' `generateSources` and the Lambda-proxy variant's
`generateDefaultSources`). -/
theorem C7_department_fallback (d : String)
    (h : d ∉ ["HR", "Finance", "IT", "Operations"]) :
    (systemPrompt d = genericPrompt ∧ generateSources d = [] ∧
      generateDefaultSources d = []) ∧
    generateSources "HR" = [⟨"Employee Handbook v3.2", "document", some "HR-DOC-001"⟩,
      ⟨"HR Policy Guidelines", "policy", some "HR-POL-002"⟩] ∧
    generateSources "Finance" = [⟨"Financial Procedures Manual", "document", some "FIN-DOC-001"⟩,
      ⟨"Expense Policy 2024", "policy", some "FIN-POL-001"⟩] ∧
    generateSources "IT" = [⟨"IT Security Handbook", "document", some "IT-DOC-001"⟩,
      ⟨"Software Request Portal", "link", some "IT-SYS-001"⟩] ∧
    generateSources "Operations" = [⟨"Operations Manual", "document", some "OPS-DOC-001"⟩,
      ⟨"Vendor Guidelines", "policy", some "OPS-POL-001"⟩] ∧
    (∀ dep, generateDefaultSources dep = generateSources dep) := by
  simp only [List.mem_cons, List.not_mem_nil, or_false, not_or] at h
  obtain ⟨h1, h2, h3, h4⟩ := h
  have h1' : ¬("HR" = d) := fun e => h1 e.symm
  have h2' : ¬("Finance" = d) := fun e => h2 e.symm
  have h3' : ¬("IT" = d) := fun e => h3 e.symm
  have h4' : ¬("Operations" = d) := fun e => h4 e.symm
  refine ⟨⟨?_, ?_, ?_⟩, by rfl, by rfl, by rfl, by rfl, fun dep => rfl⟩
  · simp [systemPrompt, departmentPrompts, List.find?, h1', h2', h3', h4', orElseS,
      truthyS]
  · simp [generateSources, departmentSources, List.find?, h1', h2', h3', h4']
  · simp [generateDefaultSources, departmentSources, List.find?, h1', h2', h3', h4']

/-- Witness for C7 at the concrete unknown department "Marketing". -/
theorem C7_department_fallback_witness :
    "Marketing" ∉ ["HR", "Finance", "IT", "Operations"] ∧
    systemPrompt "Marketing" = genericPrompt ∧
    generateSources "Marketing" = [] := by
  refine ⟨by decide, ?_, ?_⟩
  · exact (C7_department_fallback "Marketing" (by decide)).1.1
  · exact (C7_department_fallback "Marketing" (by decide)).1.2.1

lemma dailyBump_lookup_other {d d' : String} (hne : d' ≠ d) (tok : Int)
    (l : List DailyEntry) :
    dailyLookup (dailyBump d tok l) d' = dailyLookup l d' := by
  induction l with
  | nil =>
    have hne' : ¬(d = d') := fun x => hne x.symm
    simp [dailyBump, dailyLookup, List.find?, hne']
  | cons e rest ih =>
    by_cases he : e.date = d
    · subst he
      have hne' : ¬(e.date = d') := fun x => hne x.symm
      simp only [dailyBump, if_pos rfl]
      simp [dailyLookup, List.find?, hne']
    · simp only [dailyBump, if_neg he]
      by_cases he' : e.date = d'
      · simp [dailyLookup, List.find?, he']
      · simp only [dailyLookup, List.find?] at ih ⊢
        rw [show (decide (e.date = d')) = false by simp [he']]
        exact ih

lemma dailyBump_lookup_self_none {d : String} {l : List DailyEntry}
    (h : dailyLookup l d = none) (tok : Int) :
    dailyLookup (dailyBump d tok l) d = some ⟨d, 1, tok⟩ := by
  induction l with
  | nil => simp [dailyBump, dailyLookup, List.find?]
  | cons e rest ih =>
    simp only [dailyLookup, List.find?] at h
    by_cases he : e.date = d
    · rw [show (decide (e.date = d)) = true by simp [he]] at h
      exact absurd h (by simp)
    · rw [show (decide (e.date = d)) = false by simp [he]] at h
      simp only [dailyBump, if_neg he]
      simp only [dailyLookup, List.find?]
      rw [show (decide (e.date = d)) = false by simp [he]]
      exact ih h

lemma dailyBump_lookup_self_some {d : String} {l : List DailyEntry} {e0 : DailyEntry}
    (h : dailyLookup l d = some e0) (tok : Int) :
    dailyLookup (dailyBump d tok l) d = some ⟨e0.date, e0.messages + 1, e0.tokens + tok⟩ := by
  induction l with
  | nil => simp [dailyLookup, List.find?] at h
  | cons e rest ih =>
    simp only [dailyLookup, List.find?] at h
    by_cases he : e.date = d
    · rw [show (decide (e.date = d)) = true by simp [he]] at h
      simp only [Option.some.injEq] at h
      subst h
      simp only [dailyBump, if_pos he]
      simp [dailyLookup, List.find?, he]
    · rw [show (decide (e.date = d)) = false by simp [he]] at h
      simp only [dailyBump, if_neg he]
      simp only [dailyLookup, List.find?]
      rw [show (decide (e.date = d)) = false by simp [he]]
      exact ih h

lemma dailyBump_dates_mem {d : String} {l : List DailyEntry}
    (h : d ∈ l.map DailyEntry.date) (tok : Int) :
    (dailyBump d tok l).map DailyEntry.date = l.map DailyEntry.date := by
  induction l with
  | nil => simp at h
  | cons e rest ih =>
    by_cases he : e.date = d
    · simp [dailyBump, if_pos he]
    · simp only [List.map_cons, List.mem_cons] at h
      rcases h with h | h
      · exact absurd h.symm he
      · simp [dailyBump, if_neg he, ih h]

lemma dailyBump_dates_not_mem {d : String} {l : List DailyEntry}
    (h : d ∉ l.map DailyEntry.date) (tok : Int) :
    (dailyBump d tok l).map DailyEntry.date = l.map DailyEntry.date ++ [d] := by
  induction l with
  | nil => simp [dailyBump]
  | cons e rest ih =>
    simp only [List.map_cons, List.mem_cons, not_or] at h
    have he : e.date ≠ d := fun x => h.1 x.symm
    simp [dailyBump, if_neg he, ih h.2]

lemma dailyLookup_eq_none_iff {l : List DailyEntry} {d : String} :
    dailyLookup l d = none ↔ d ∉ l.map DailyEntry.date := by
  rw [dailyLookup, List.find?_eq_none]
  constructor
  · intro h hmem
    obtain ⟨e, he, rfl⟩ := List.mem_map.mp hmem
    exact absurd (by simp : (decide (e.date = e.date)) = true) (by simpa using h e he)
  · intro h e he
    simp only [decide_eq_true_eq]
    intro hcontra
    exact h (List.mem_map.mpr ⟨e, he, hcontra⟩)

lemma dayMessages_append (dateKey : String → String) (rs : List AnalyticsMetadata)
    (a : AnalyticsMetadata) (d : String) :
    dayMessages dateKey (rs ++ [a]) d =
      dayMessages dateKey rs d + (if dateKey a.timestamp = d then 1 else 0) := by
  unfold dayMessages
  rw [List.filter_append]
  by_cases h : dateKey a.timestamp = d <;> simp [h]

lemma dayTokens_append (dateKey : String → String) (rs : List AnalyticsMetadata)
    (a : AnalyticsMetadata) (d : String) :
    dayTokens dateKey (rs ++ [a]) d =
      dayTokens dateKey rs d + (if dateKey a.timestamp = d then a.total_tokens else 0) := by
  unfold dayTokens
  rw [List.filter_append]
  by_cases h : dateKey a.timestamp = d <;> simp [h]

lemma dayTokens_eq_zero_of_messages {dateKey : String → String}
    {rs : List AnalyticsMetadata} {d : String}
    (h : dayMessages dateKey rs d = 0) : dayTokens dateKey rs d = 0 := by
  unfold dayMessages at h
  unfold dayTokens
  rw [List.length_eq_zero] at h
  rw [h]
  simp

lemma dailyUsage_summary (dateKey : String → String)
    (records : List AnalyticsMetadata) :
    ((dailyUsage dateKey records).map DailyEntry.date).Nodup ∧
    ∀ d, dailyLookup (dailyUsage dateKey records) d =
      if dayMessages dateKey records d = 0 then none
      else some ⟨d, dayMessages dateKey records d, dayTokens dateKey records d⟩ := by
  induction records using List.reverseRecOn with
  | nil =>
    constructor
    · simp [dailyUsage]
    · intro d
      simp [dailyUsage, dailyLookup, dayMessages, dayTokens, List.find?]
  | append_singleton rs a ih =>
    obtain ⟨ihnodup, ihlookup⟩ := ih
    have husage : dailyUsage dateKey (rs ++ [a]) =
        dailyBump (dateKey a.timestamp) a.total_tokens (dailyUsage dateKey rs) := by
      simp [dailyUsage, List.foldl_append]
    constructor
    · rw [husage]
      by_cases hmem : dateKey a.timestamp ∈ (dailyUsage dateKey rs).map DailyEntry.date
      · rw [dailyBump_dates_mem hmem]
        exact ihnodup
      · rw [dailyBump_dates_not_mem hmem, List.nodup_append]
        refine ⟨ihnodup, List.nodup_singleton _, ?_⟩
        intro x hx
        simp only [List.mem_singleton]
        intro hcontra
        subst hcontra
        exact hmem hx
    · intro d
      rw [husage]
      by_cases hd : dateKey a.timestamp = d
      · rw [hd]
        rcases hcase : dailyLookup (dailyUsage dateKey rs) d with _ | e0
        · rw [dailyBump_lookup_self_none hcase]
          have hm0 : dayMessages dateKey rs d = 0 := by
            by_contra hne0
            rw [ihlookup d, if_neg hne0] at hcase
            exact absurd hcase (by simp)
          rw [dayMessages_append, dayTokens_append, hm0, if_pos hd, if_pos hd,
            dayTokens_eq_zero_of_messages hm0]
          simp
        · rw [dailyBump_lookup_self_some hcase]
          rw [ihlookup d] at hcase
          by_cases hm0 : dayMessages dateKey rs d = 0
          · rw [if_pos hm0] at hcase
            exact absurd hcase (by simp)
          · rw [if_neg hm0] at hcase
            simp only [Option.some.injEq] at hcase
            subst hcase
            rw [dayMessages_append, dayTokens_append, if_pos hd, if_pos hd]
            have : ¬(dayMessages dateKey rs d + 1 = 0) := by omega
            rw [if_neg this]
      · have hd' : d ≠ dateKey a.timestamp := fun x => hd x.symm
        rw [dailyBump_lookup_other hd', ihlookup d,
          dayMessages_append, dayTokens_append]
        rw [if_neg hd, if_neg hd]
        simp

/-- C9: the daily aggregation groups analytics records by the calendar day
of their timestamp: the resulting date keys are pairwise distinct, and each
day's bucket holds exactly the count of that day's records in `messages`
and the sum of their `total_tokens` in `tokens` (days with no records have
no bucket). In particular three records with total_tokens 10, 20, 30 on one
calendar day produce the single bucket `{messages: 3, tokens: 60}`. -/
theorem C9_daily_aggregation (dateKey : String → String)
    (records : List AnalyticsMetadata) :
    (((dailyUsage dateKey records).map DailyEntry.date).Nodup ∧
      ∀ d, dailyLookup (dailyUsage dateKey records) d =
        if dayMessages dateKey records d = 0 then none
        else some ⟨d, dayMessages dateKey records d, dayTokens dateKey records d⟩) ∧
    dailyUsage (fun _ => "2024-01-01")
      [mkDayRecord "t1" 10, mkDayRecord "t2" 20, mkDayRecord "t3" 30] =
      [⟨"2024-01-01", 3, 60⟩] :=
  ⟨dailyUsage_summary dateKey records, by rfl⟩

/-- C10: `getStoredSession` is total over every stored value: an absent key
and an unparsable stored string both yield `null` with storage untouched;
a parsed session with `expiresAt < now` is removed from storage and `null`
is returned; otherwise the parsed session is returned unchanged. -/
theorem C10_getStoredSession_total (now : Int) :
    getStoredSession .absent now = (none, .absent) ∧
    (∀ raw, getStoredSession (.malformed raw) now = (none, .malformed raw)) ∧
    (∀ s : AuthSession, s.expiresAt < now →
      getStoredSession (.valid s) now = (none, .absent)) ∧
    (∀ s : AuthSession, ¬s.expiresAt < now →
      getStoredSession (.valid s) now = (some s, .valid s)) := by
  refine ⟨rfl, fun raw => rfl, ?_, ?_⟩
  · intro s h
    simp [getStoredSession, h]
  · intro s h
    simp [getStoredSession, h]

/-- Witness for C10 at concrete stored values: an expired session
(expiry 3 read at time 5) is dropped and removed, an unexpired one
(expiry 7) is returned unchanged, a malformed value yields null. -/
theorem C10_getStoredSession_total_witness :
    ((3 : Int) < 5 ∧
      getStoredSession
        (.valid { token := "t", expiresAt := 3, user := { id := "u", email := "e" } }) 5 =
        (none, .absent)) ∧
    (¬(7 : Int) < 5 ∧
      getStoredSession
        (.valid { token := "t", expiresAt := 7, user := { id := "u", email := "e" } }) 5 =
        (some { token := "t", expiresAt := 7, user := { id := "u", email := "e" } },
          .valid { token := "t", expiresAt := 7, user := { id := "u", email := "e" } })) ∧
    getStoredSession (.malformed "oops") 5 = (none, .malformed "oops") :=
  ⟨⟨by norm_num, (C10_getStoredSession_total 5).2.2.1 _ (by norm_num)⟩,
   ⟨by norm_num, (C10_getStoredSession_total 5).2.2.2 _ (by norm_num)⟩,
   (C10_getStoredSession_total 5).2.1 "oops"⟩

/-- C1 fails as stated: with a stored, unexpired session that carries no
refresh token and expires far in the future, `refreshSession` returns
`null`, not the stored session (which `getStoredSession` does return). -/
theorem C1_counterexample :
    (getStoredSession
        (.valid { token := "t", refreshToken := none, expiresAt := 1000000000,
                  user := { id := "u", email := "e" } }) 0).1 =
      some { token := "t", refreshToken := none, expiresAt := 1000000000,
             user := { id := "u", email := "e" } } ∧
    (refreshSession (fun _ => none)
        (.valid { token := "t", refreshToken := none, expiresAt := 1000000000,
                  user := { id := "u", email := "e" } }) 0 .throw).1 = none ∧
    (refreshSession (fun _ => none)
        (.valid { token := "t", refreshToken := none, expiresAt := 1000000000,
                  user := { id := "u", email := "e" } }) 0 .throw).1 ≠
      (getStoredSession
        (.valid { token := "t", refreshToken := none, expiresAt := 1000000000,
                  user := { id := "u", email := "e" } }) 0).1 := by
  refine ⟨by decide, by decide, by decide⟩

/-- C1 (amended): `refreshSession` returns `null` without a network call
when no session is readable or the stored session has no (truthy) refresh
token; it returns the stored session unchanged without a network call when
a refresh token exists and expiry is at least 5 minutes away; and it issues
the network refresh call exactly in the remaining case (refresh token
present, expiry less than 5 minutes away). -/
theorem C1_refreshSession_amended (parseJson : String → Option LambdaAuthResponse)
    (stored : StoredVal) (now : Int) (net : FetchOutcome LambdaAuthResponse) :
    ((getStoredSession stored now).1 = none →
      refreshSession parseJson stored now net =
        (none, (getStoredSession stored now).2, false)) ∧
    (∀ s, (getStoredSession stored now).1 = some s →
      truthyS s.refreshToken = false →
      refreshSession parseJson stored now net =
        (none, (getStoredSession stored now).2, false)) ∧
    (∀ s, (getStoredSession stored now).1 = some s →
      truthyS s.refreshToken = true →
      5 * 60 * 1000 ≤ s.expiresAt - now →
      refreshSession parseJson stored now net =
        (some s, (getStoredSession stored now).2, false)) ∧
    (∀ s, (getStoredSession stored now).1 = some s →
      truthyS s.refreshToken = true →
      s.expiresAt - now < 5 * 60 * 1000 →
      (refreshSession parseJson stored now net).2.2 = true) := by
  refine ⟨?_, ?_, ?_, ?_⟩
  · intro h
    simp only [refreshSession, h]
  · intro s hs htok
    simp only [refreshSession, hs]
    simp [htok]
  · intro s hs htok hfar
    have hnot : ¬(s.expiresAt - now < 5 * 60 * 1000) := by omega
    have hnot' : ¬(s.expiresAt - now < 300000) := by omega
    simp only [refreshSession, hs]
    simp [htok, hnot, hnot']
  · intro s hs htok hnear
    have hnear' : s.expiresAt - now < 300000 := by omega
    simp only [refreshSession, hs]
    simp only [htok, Bool.not_true, Bool.false_eq_true, if_false]
    simp only [show (5 : Int) * 60 * 1000 = 300000 by norm_num, hnear', not_true,
      if_false]
    cases net with
    | throw => rfl
    | reply ok data =>
      split
      · rfl
      · split <;> rfl

/-- Witness for C1 (amended): a session with refresh token "r" and expiry
10,000,000 ms read at time 0 is more than 5 minutes from expiry, so
`refreshSession` returns it unchanged without any network call. -/
theorem C1_refreshSession_amended_witness :
    (5 : Int) * 60 * 1000 ≤ 10000000 - 0 ∧
    refreshSession (fun _ => none)
      (.valid { token := "t", refreshToken := some "r", expiresAt := 10000000,
                user := { id := "u", email := "e" } }) 0 .throw =
      (some { token := "t", refreshToken := some "r", expiresAt := 10000000,
              user := { id := "u", email := "e" } },
        (getStoredSession
          (.valid { token := "t", refreshToken := some "r", expiresAt := 10000000,
                    user := { id := "u", email := "e" } }) 0).2, false) :=
  ⟨by norm_num,
   (C1_refreshSession_amended (fun _ => none)
      (.valid { token := "t", refreshToken := some "r", expiresAt := 10000000,
                user := { id := "u", email := "e" } }) 0 .throw).2.2.1
      { token := "t", refreshToken := some "r", expiresAt := 10000000,
        user := { id := "u", email := "e" } }
      (by decide) (by decide) (by norm_num)⟩

/-- C4 fails as stated: when the auth provider supplies `expiresIn = 0` on
a successful login at time 0, the persisted session's `expiresAt` is
3,600,000 (the 3600-second default), not `now + 0 * 1000 = 0` as the claim
(`expiresIn ?? 3600` semantics) predicts. -/
theorem C4_counterexample :
    (login (fun _ => none) true
        { token := some "t", user := some { id := "u", email := "e" },
          expiresIn := some 0 } 0 .absent).2 =
      .valid { token := "t", refreshToken := none, expiresAt := 3600000,
               user := { id := "u", email := "e" } } ∧
    (3600000 : Int) ≠ 0 + 0 * 1000 := by
  refine ⟨by decide, by norm_num⟩

/-- C4 (amended): on successful login/signup the persisted and returned
session's `expiresAt` is `now + (expiresIn || 3600) * 1000` with JS `||`
semantics: an explicit nonzero `expiresIn` is used, while an absent or
zero `expiresIn` falls back to the 3600-second default. -/
theorem C4_login_expiry (parseJson : String → Option LambdaAuthResponse)
    (ok : Bool) (data : LambdaAuthResponse) (now : Int) (stored : StoredVal) :
    (∀ s st, login parseJson ok data now stored = (.ok s, st) →
      s.expiresAt =
        now + orElseN (authParseLambdaResponse parseJson data).expiresIn 3600 * 1000 ∧
      st = .valid s) ∧
    (∀ s st, signup parseJson ok data now stored = (.ok s, st) →
      s.expiresAt =
        now + orElseN (authParseLambdaResponse parseJson data).expiresIn 3600 * 1000 ∧
      st = .valid s) ∧
    (∀ n : Int, n ≠ 0 → orElseN (some n) 3600 = n) ∧
    orElseN (some 0) 3600 = 3600 ∧
    orElseN none 3600 = 3600 := by
  refine ⟨?_, ?_, ?_, by decide, by decide⟩
  · intro s st h
    simp only [login] at h
    split_ifs at h
    · obtain ⟨h1, h2⟩ := Prod.mk.injEq .. ▸ h
      exact absurd h1 (by simp)
    · obtain ⟨h1, h2⟩ := Prod.mk.injEq .. ▸ h
      exact absurd h1 (by simp)
    · obtain ⟨h1, h2⟩ := Prod.mk.injEq .. ▸ h
      simp only [Except.ok.injEq] at h1
      subst h1
      exact ⟨rfl, h2.symm⟩
  · intro s st h
    simp only [signup] at h
    split_ifs at h
    · obtain ⟨h1, h2⟩ := Prod.mk.injEq .. ▸ h
      exact absurd h1 (by simp)
    · obtain ⟨h1, h2⟩ := Prod.mk.injEq .. ▸ h
      exact absurd h1 (by simp)
    · obtain ⟨h1, h2⟩ := Prod.mk.injEq .. ▸ h
      simp only [Except.ok.injEq] at h1
      subst h1
      exact ⟨rfl, h2.symm⟩
  · intro n hn
    simp [orElseN, truthyN, hn]

/-- Witness for C4 (amended) at a concrete successful login: provider
supplies `expiresIn = 7` at time 5, so the session expires at 7005. -/
theorem C4_login_expiry_witness :
    (login (fun _ => none) true
        { token := some "t", user := some { id := "u", email := "e" },
          expiresIn := some 7 } 5 .absent).2 =
      .valid { token := "t", refreshToken := none, expiresAt := 7005,
               user := { id := "u", email := "e" } } ∧
    ({ token := "t", refreshToken := none, expiresAt := 7005,
       user := { id := "u", email := "e" } } : AuthSession).expiresAt =
      5 + orElseN (authParseLambdaResponse (fun _ => none)
        { token := some "t", user := some { id := "u", email := "e" },
          expiresIn := some 7 }).expiresIn 3600 * 1000 :=
  ⟨by decide,
   ((C4_login_expiry (fun _ => none) true
      { token := some "t", user := some { id := "u", email := "e" },
        expiresIn := some 7 } 5 .absent).1
      { token := "t", refreshToken := none, expiresAt := 7005,
        user := { id := "u", email := "e" } }
      (.valid { token := "t", refreshToken := none, expiresAt := 7005,
                user := { id := "u", email := "e" } })
      (by rfl)).1⟩

/-- C2 fails as stated: the proxy envelope `{statusCode: 403, body:
"{\"error\":\"denied\"}"}` delivered with HTTP 200 makes `sendChatMessage`
throw the body's own message "denied", while the direct body
`{error:"denied"}` with HTTP 403 throws the fixed message "Authentication
required. Please log in." — the two client-visible errors differ. -/
theorem C2_counterexample :
    sendChatMessage parseJsonDenied 200
      { statusCode := some 403, body := some "\x7b\"error\":\"denied\"\x7d" }
      "sid" "HR" none none "now" = .error "denied" ∧
    sendChatMessage parseJsonDenied 403 { error := some "denied" }
      "sid" "HR" none none "now" =
      .error "Authentication required. Please log in." ∧
    ("denied" : String) ≠ "Authentication required. Please log in." := by
  refine ⟨by rfl, by rfl, by decide⟩

/-- C2 (amended): the two delivery forms produce different client-visible
errors. A direct-form reply with HTTP 401/403 always throws the fixed
"Authentication required. Please log in." message regardless of the body,
while a proxy envelope carrying statusCode ≥ 400 inside an HTTP 200 reply
throws the envelope body's own (truthy) `error` message. -/
theorem C2_error_normalization (parseJson : String → Option ClientBody)
    (data : ClientBody) (sessionId department : String)
    (localeOpt ragMode : Option String) (nowIso : String) :
    (∀ status, status = 401 ∨ status = 403 →
      sendChatMessage parseJson status data sessionId department localeOpt
        ragMode nowIso = .error "Authentication required. Please log in.") ∧
    (∀ parsed, isLambdaProxyResponse data = true →
      400 ≤ data.statusCode.getD 0 →
      parseJson (data.body.getD "") = some parsed →
      truthyS parsed.error = true →
      sendChatMessage parseJson 200 data sessionId department localeOpt
        ragMode nowIso = .error (parsed.error.getD "")) := by
  constructor
  · intro status hstatus
    have hnotok : ¬(200 ≤ status ∧ status < 300) := by omega
    have hne429 : ¬(status = 429) := by omega
    simp only [sendChatMessage]
    rw [if_pos hnotok, if_neg hne429, if_pos hstatus]
  · intro parsed hproxy hcode hparse herr
    have hok : (200 ≤ 200 ∧ 200 < 300) := by omega
    simp only [sendChatMessage]
    rw [if_neg (not_not_intro hok)]
    simp only [clientParseLambdaResponse, hproxy, if_pos rfl, hparse]
    simp [hcode, orElseS, herr]

/-- Witness for C2 (amended): both conjuncts applied at the concrete
envelope/direct scenarios of the counterexample input shape. -/
theorem C2_error_normalization_witness :
    sendChatMessage parseJsonDenied 403 { error := some "denied" }
      "sid" "HR" none none "now" =
      .error "Authentication required. Please log in." ∧
    sendChatMessage parseJsonDenied 200
      { statusCode := some 403, body := some "\x7b\"error\":\"denied\"\x7d" }
      "sid" "HR" none none "now" =
      .error (Option.getD (some "denied") "") :=
  ⟨(C2_error_normalization parseJsonDenied { error := some "denied" }
      "sid" "HR" none none "now").1 403 (Or.inr rfl),
   (C2_error_normalization parseJsonDenied
      { statusCode := some 403, body := some "\x7b\"error\":\"denied\"\x7d" }
      "sid" "HR" none none "now").2 { error := some "denied" }
      (by decide) (by norm_num) (by rfl) (by decide)⟩

/-- C3 fails as stated: in the Lambda-proxy variant the three token fields
are copied independently from the upstream analytics, so an upstream reply
carrying `{input_tokens:1, output_tokens:2, total_tokens:5}` produces a
fresh success analytics record with `total_tokens = 5 ≠ 1 + 2`. -/
theorem C3_counterexample :
    handlerC (fun _ => none) 200
      (some (.direct { response := some "hi",
                       analytics := some { input_tokens := some 1,
                                           output_tokens := some 2,
                                           total_tokens := some 5 } }))
      "HR" "sid" none none 12 "now" "fresh" =
      (200, .success "hi"
        { session_id := "sid", execution_time_ms := 12, invocation_count := 1,
          input_tokens := 1, output_tokens := 2, total_tokens := 5,
          model := "lambda-llm", department := "HR", timestamp := "now",
          locale := "en_US", rag_mode := none }
        (generateDefaultSources "HR")) ∧
    (5 : Int) ≠ 1 + 2 := by
  refine ⟨by decide, by norm_num⟩

/-- C3 (amended): in the AI-gateway and Lambda-with-key variants every
success analytics record satisfies `total_tokens = input_tokens +
output_tokens`; in the Lambda-proxy variant the three token fields are
copied independently from the upstream analytics with `|| 0` defaults, so
the fresh record's fields equal those copies and the invariant holds
whenever the upstream supplied no analytics object (and more generally only
when the copied values themselves satisfy it). -/
theorem C3_total_tokens :
    (∀ hasKey messages department sessionId localeOpt ragMode execMs nowIso
        freshId status contentOpt c a srcs,
      handlerA hasKey messages department sessionId localeOpt ragMode execMs
          nowIso freshId status contentOpt = (200, .success c a srcs) →
      a.total_tokens = a.input_tokens + a.output_tokens) ∧
    (∀ messages department sessionId localeOpt ragMode execMs nowIso freshId
        status errorText contentOpt c a srcs,
      handlerB messages department sessionId localeOpt ragMode execMs nowIso
          freshId status errorText contentOpt = (200, .success c a srcs) →
      a.total_tokens = a.input_tokens + a.output_tokens) ∧
    (∀ parseBody status w department sessionId localeOpt ragMode execMs nowIso
        freshId c a srcs,
      handlerC parseBody status (some w) department sessionId localeOpt ragMode
          execMs nowIso freshId = (200, .success c a srcs) →
      a.input_tokens =
        orElseN ((handlerCBody parseBody w).analytics.bind PartialAnalytics.input_tokens) 0 ∧
      a.output_tokens =
        orElseN ((handlerCBody parseBody w).analytics.bind PartialAnalytics.output_tokens) 0 ∧
      a.total_tokens =
        orElseN ((handlerCBody parseBody w).analytics.bind PartialAnalytics.total_tokens) 0 ∧
      ((handlerCBody parseBody w).analytics = none →
        a.total_tokens = a.input_tokens + a.output_tokens)) := by
  refine ⟨?_, ?_, ?_⟩
  · intro hasKey messages department sessionId localeOpt ragMode execMs nowIso
      freshId status contentOpt c a srcs h
    simp only [handlerA] at h
    split_ifs at h
    all_goals rw [Prod.mk.injEq] at h
    all_goals
      first
      | exact absurd h.1 (by decide)
      | (obtain ⟨-, hsnd⟩ := h
         cases hsnd
         rfl)
  · intro messages department sessionId localeOpt ragMode execMs nowIso freshId
      status errorText contentOpt c a srcs h
    simp only [handlerB] at h
    split_ifs at h
    all_goals rw [Prod.mk.injEq] at h
    all_goals
      first
      | exact absurd h.1 (by decide)
      | (obtain ⟨-, hsnd⟩ := h
         cases hsnd
         rfl)
  · intro parseBody status w department sessionId localeOpt ragMode execMs
      nowIso freshId c a srcs h
    simp only [handlerC] at h
    split_ifs at h
    all_goals rw [Prod.mk.injEq] at h
    all_goals
      first
      | exact absurd h.1 (by decide)
      | (obtain ⟨-, hsnd⟩ := h
         cases hsnd
         refine ⟨rfl, rfl, rfl, ?_⟩
         intro hnone
         simp [hnone, orElseN, truthyN])

/-- Witness for C3 (amended): concrete success responses in all three
variants — empty-message request to department "X" in the estimating
variants, and an upstream direct reply with no analytics in the proxy
variant. -/
theorem C3_total_tokens_witness :
    (handlerA true [] "X" "sid" none none 3 "now" "f" 200 none =
      (200, .success ""
        { session_id := "sid", execution_time_ms := 3, invocation_count := 1,
          input_tokens := (estimateTokens (String.intercalate " " [] ++ systemPrompt "X") : Int),
          output_tokens := (estimateTokens "" : Int),
          total_tokens := (estimateTokens (String.intercalate " " [] ++ systemPrompt "X") : Int) +
            (estimateTokens "" : Int),
          model := "google/gemini-3-flash-preview", department := "X",
          timestamp := "now", locale := "en_US", rag_mode := none }
        (generateSources "X")) ∧
     ((estimateTokens (String.intercalate " " [] ++ systemPrompt "X") : Int) +
        (estimateTokens "" : Int) : Int) =
       (estimateTokens (String.intercalate " " [] ++ systemPrompt "X") : Int) +
        (estimateTokens "" : Int)) ∧
    (handlerC (fun _ => none) 200 (some (.direct { response := some "hi" }))
        "HR" "sid" none none 12 "now" "fresh" =
      (200, .success "hi"
        { session_id := "sid", execution_time_ms := 12, invocation_count := 1,
          input_tokens := 0, output_tokens := 0, total_tokens := 0,
          model := "lambda-llm", department := "HR", timestamp := "now",
          locale := "en_US", rag_mode := none }
        (generateDefaultSources "HR")) ∧
     (0 : Int) = 0 + 0) :=
  ⟨⟨by rfl,
    C3_total_tokens.1 true [] "X" "sid" none none 3 "now" "f" 200 none ""
      { session_id := "sid", execution_time_ms := 3, invocation_count := 1,
        input_tokens := (estimateTokens (String.intercalate " " [] ++ systemPrompt "X") : Int),
        output_tokens := (estimateTokens "" : Int),
        total_tokens := (estimateTokens (String.intercalate " " [] ++ systemPrompt "X") : Int) +
          (estimateTokens "" : Int),
        model := "google/gemini-3-flash-preview", department := "X",
        timestamp := "now", locale := "en_US", rag_mode := none }
      (generateSources "X") (by rfl)⟩,
   ⟨by decide,
    (C3_total_tokens.2.2 (fun _ => none) 200 (.direct { response := some "hi" })
      "HR" "sid" none none 12 "now" "fresh" "hi"
      { session_id := "sid", execution_time_ms := 12, invocation_count := 1,
        input_tokens := 0, output_tokens := 0, total_tokens := 0,
        model := "lambda-llm", department := "HR", timestamp := "now",
        locale := "en_US", rag_mode := none }
      (generateDefaultSources "HR") (by decide)).2.2.2 rfl⟩⟩

/-- C5 fails as stated: in the Lambda-proxy variant an upstream HTTP 429
whose body is not valid JSON (e.g. the plain text "Too Many Requests")
makes `JSON.parse` throw, so the endpoint responds 500 with "Invalid
Lambda response format" instead of the 429 rate-limit response. -/
theorem C5_counterexample :
    handlerC (fun _ => none) 429 none "HR" "sid" none none 12 "now" "fresh" =
      (500, .failure "Invalid Lambda response format"
        (some (errorAnalytics "fresh" 12 "lambda-llm" "now"))) ∧
    handlerC (fun _ => none) 429 none "HR" "sid" none none 12 "now" "fresh" ≠
      (429, .failure "Rate limits exceeded, please try again later." none) := by
  refine ⟨by decide, by decide⟩

/-- C5 (amended): upstream HTTP 429 always yields status 429 with
`{error: "Rate limits exceeded, please try again later.", analytics: null}`
in the AI-gateway (key configured) and Lambda-with-key variants, for every
request and upstream body; in the Lambda-proxy variant it does so exactly
when the upstream body is valid JSON whose effective status is 429 — a
direct-form JSON body under HTTP 429, or an envelope with statusCode 429 —
while an unparsable body yields a 500 error instead. -/
theorem C5_rate_limit :
    (∀ messages department sessionId localeOpt ragMode execMs nowIso freshId
        contentOpt,
      handlerA true messages department sessionId localeOpt ragMode execMs
          nowIso freshId 429 contentOpt =
        (429, .failure "Rate limits exceeded, please try again later." none)) ∧
    (∀ messages department sessionId localeOpt ragMode execMs nowIso freshId
        errorText contentOpt,
      handlerB messages department sessionId localeOpt ragMode execMs nowIso
          freshId 429 errorText contentOpt =
        (429, .failure "Rate limits exceeded, please try again later." none)) ∧
    (∀ parseBody d department sessionId localeOpt ragMode execMs nowIso freshId,
      handlerC parseBody 429 (some (.direct d)) department sessionId localeOpt
          ragMode execMs nowIso freshId =
        (429, .failure "Rate limits exceeded, please try again later." none)) ∧
    (∀ parseBody status b department sessionId localeOpt ragMode execMs nowIso
        freshId,
      handlerC parseBody status (some (.envelope 429 b)) department sessionId
          localeOpt ragMode execMs nowIso freshId =
        (429, .failure "Rate limits exceeded, please try again later." none)) := by
  refine ⟨?_, ?_, ?_, ?_⟩
  · intro messages department sessionId localeOpt ragMode execMs nowIso freshId
      contentOpt
    simp only [handlerA]
    norm_num
  · intro messages department sessionId localeOpt ragMode execMs nowIso freshId
      errorText contentOpt
    simp only [handlerB]
    norm_num
  · intro parseBody d department sessionId localeOpt ragMode execMs nowIso
      freshId
    simp only [handlerC]
    norm_num
  · intro parseBody status b department sessionId localeOpt ragMode execMs
      nowIso freshId
    simp only [handlerC]
    norm_num
